import Mathlib

/-!
Verification of the core of a minimal container runtime written in Go
(registry client, layer cache, reference parser, rootfs assembly and
process isolation).  The relevant Go functions are shallowly embedded:

* Go strings are modelled as lists of characters (`GoStr`); every string
  the runtime manipulates is ASCII, where one character is one byte, so
  Go's byte-wise string operations coincide with character-wise ones.
* Byte streams are lists of naturals below 256 (`Bytes`).
* 32-bit machine words are naturals reduced modulo 2^32 (`w32`) at every
  arithmetic step that can overflow.
* The `crypto/sha256` hash used by `hasLayer` is implemented in full
  (FIPS 180-4), executable, and validated against standard test vectors.
* Filesystem and network effects are made explicit: a file is its byte
  content, a download is the received byte list, and the requests a code
  path issues are returned as an explicit trace.
-/

set_option maxRecDepth 100000

namespace ContainerRuntime

/-- Go strings, modelled as character lists (all data involved is ASCII). -/
abbrev GoStr := List Char

/-- Byte streams: lists of naturals below 256. -/
abbrev Bytes := List Nat

/-! ### SHA-256 (`crypto/sha256`), as used by `hasLayer` -/

/-- Reduce to a 32-bit word. -/
def w32 (x : Nat) : Nat := x % 4294967296

/-- Right rotation of a 32-bit word. -/
def rotr (n x : Nat) : Nat := w32 ((x >>> n) ||| (x <<< (32 - n)))

/-- SHA-256 small sigma-0. -/
def ssig0 (x : Nat) : Nat := (rotr 7 x) ^^^ (rotr 18 x) ^^^ (x >>> 3)

/-- SHA-256 small sigma-1. -/
def ssig1 (x : Nat) : Nat := (rotr 17 x) ^^^ (rotr 19 x) ^^^ (x >>> 10)

/-- SHA-256 big Sigma-0. -/
def bsig0 (x : Nat) : Nat := (rotr 2 x) ^^^ (rotr 13 x) ^^^ (rotr 22 x)

/-- SHA-256 big Sigma-1. -/
def bsig1 (x : Nat) : Nat := (rotr 6 x) ^^^ (rotr 11 x) ^^^ (rotr 25 x)

/-- The 64 SHA-256 round constants. -/
def K256 : List Nat :=
  [1116352408, 1899447441, 3049323471, 3921009573, 961987163, 1508970993,
   2453635748, 2870763221, 3624381080, 310598401, 607225278, 1426881987,
   1925078388, 2162078206, 2614888103, 3248222580, 3835390401, 4022224774,
   264347078, 604807628, 770255983, 1249150122, 1555081692, 1996064986,
   2554220882, 2821834349, 2952996808, 3210313671, 3336571891, 3584528711,
   113926993, 338241895, 666307205, 773529912, 1294757372, 1396182291,
   1695183700, 1986661051, 2177026350, 2456956037, 2730485921, 2820302411,
   3259730800, 3345764771, 3516065817, 3600352804, 4094571909, 275423344,
   430227734, 506948616, 659060556, 883997877, 958139571, 1322822218,
   1537002063, 1747873779, 1955562222, 2024104815, 2227730452, 2361852424,
   2428436474, 2756734187, 3204031479, 3329325298]

/-- The eight SHA-256 working registers. -/
structure Regs where
  a : Nat
  b : Nat
  c : Nat
  d : Nat
  e : Nat
  f : Nat
  g : Nat
  h : Nat

/-- Initial SHA-256 register values. -/
def initRegs : Regs :=
  ⟨1779033703, 3144134277, 1013904242, 2773480762,
   1359893119, 2600822924, 528734635, 1541459225⟩

/-- `k` bytes of `n`, big-endian. -/
def toBytesBE (k n : Nat) : Bytes :=
  (List.range k).map (fun i => (n >>> (8 * (k - 1 - i))) % 256)

/-- Big-endian 4-byte encoding of a 32-bit word. -/
def toBytes4 (n : Nat) : Bytes :=
  [(n >>> 24) % 256, (n >>> 16) % 256, (n >>> 8) % 256, n % 256]

/-- Group bytes into big-endian 32-bit words. -/
def toWordsBE : Bytes → List Nat
  | b0 :: b1 :: b2 :: b3 :: rest =>
      (b0 * 16777216 + b1 * 65536 + b2 * 256 + b3) :: toWordsBE rest
  | _ => []

/-- SHA-256 padding: append `0x80`, zeros, and the 64-bit bit length. -/
def padMessage (msg : Bytes) : Bytes :=
  msg ++ [0x80] ++ List.replicate ((55 + 64 - msg.length % 64) % 64) 0
      ++ toBytesBE 8 (msg.length * 8)

/-- Split into 64-byte chunks (fuel-structured so that it reduces). -/
def chunks64Fuel : Nat → Bytes → List Bytes
  | 0, _ => []
  | _, [] => []
  | fuel + 1, l => l.take 64 :: chunks64Fuel fuel (l.drop 64)

/-- Split into 64-byte chunks. -/
def chunks64 (l : Bytes) : List Bytes := chunks64Fuel l.length l

/-- Extend the first 16 message-schedule words to 64. -/
def extendSchedule (w16 : List Nat) : List Nat :=
  (List.range 48).foldl
    (fun w _ =>
      let n := w.length
      w ++ [w32 (ssig1 (w.getD (n - 2) 0) + w.getD (n - 7) 0
                  + ssig0 (w.getD (n - 15) 0) + w.getD (n - 16) 0)])
    w16

/-- One SHA-256 round; `wk` is the pair (schedule word, round constant). -/
def roundStep (r : Regs) (wk : Nat × Nat) : Regs :=
  let ch := (r.e &&& r.f) ^^^ ((r.e ^^^ 0xffffffff) &&& r.g)
  let maj := (r.a &&& r.b) ^^^ (r.a &&& r.c) ^^^ (r.b &&& r.c)
  let t1 := w32 (r.h + bsig1 r.e + ch + wk.2 + wk.1)
  let t2 := w32 (bsig0 r.a + maj)
  ⟨w32 (t1 + t2), r.a, r.b, r.c, w32 (r.d + t1), r.e, r.f, r.g⟩

/-- Compress one 64-byte chunk into the running registers. -/
def compressChunk (hs : Regs) (chunk : Bytes) : Regs :=
  let w := extendSchedule (toWordsBE chunk)
  let r := (w.zip K256).foldl roundStep hs
  ⟨w32 (hs.a + r.a), w32 (hs.b + r.b), w32 (hs.c + r.c), w32 (hs.d + r.d),
   w32 (hs.e + r.e), w32 (hs.f + r.f), w32 (hs.g + r.g), w32 (hs.h + r.h)⟩

/-- SHA-256 of a byte stream: the 32-byte digest. -/
def sha256 (msg : Bytes) : Bytes :=
  let r := (chunks64 (padMessage msg)).foldl compressChunk initRegs
  toBytes4 r.a ++ toBytes4 r.b ++ toBytes4 r.c ++ toBytes4 r.d
    ++ toBytes4 r.e ++ toBytes4 r.f ++ toBytes4 r.g ++ toBytes4 r.h

/-- A SHA-256 digest is always exactly 32 bytes. -/
theorem sha256_length (msg : Bytes) : (sha256 msg).length = 32 := by
  simp [sha256, toBytes4]

/-- The hexadecimal digits. -/
def hexDigits : GoStr := "0123456789abcdef".toList

/-- Lowercase hex rendering of a byte list. -/
def hexOfBytes (bs : Bytes) : GoStr :=
  bs.flatMap (fun b => [hexDigits.getD (b / 16) 'x', hexDigits.getD (b % 16) 'x'])

-- Standard test vectors (FIPS 180-4 / NIST) validating the embedding.
example : hexOfBytes (sha256 []) =
    "e3b0c44298fc1c149afbf4c8996fb92427ae41e4649b934ca495991b7852b855".toList := by decide

example : hexOfBytes (sha256 [0x61, 0x62, 0x63]) =
    "ba7816bf8f01cfea414140de5dae2223b00361a396177a9cb410ff61f20015ad".toList := by decide

/-! ### Layer cache (`RegistryCache.hasLayer`, `copyTo`) -/

/-- A layer descriptor as the Go `ImageLayer` carries it after JSON
decoding: `Digest` is the full `sha256:<hex>` string, `Sha256Sum` is the
hex part split off by `UnmarshalJSON`, `Size` the declared byte count. -/
structure ImageLayer where
  digest : GoStr
  sha256Sum : GoStr
  size : Nat

/-- Go's `string(bytes)` conversion: the raw bytes reinterpreted as a
string.  For the ASCII digest strings the runtime compares against,
character-wise equality coincides with Go's byte-wise equality. -/
def bytesToGoStr (bs : Bytes) : GoStr := bs.map Char.ofNat

/-- The keys of the in-memory `registryCache.Layers` map.  The source
declares `var registryCache RegistryCache` and never assigns to its
`Layers` field, so the map is its zero value: empty. -/
def registryCacheLayers : List GoStr := []

/-- `RegistryCache.hasLayer` (src/unnamed/part_001:318-340).  The
in-memory map is probed with the full digest; on a miss the cache file
`<layers>/<Sha256Sum>.tar.gz` is opened (`file = none` models the open
failing because the file is absent), hashed with `crypto/sha256`, and
the RAW 32 digest bytes, converted by `string(hash.Sum(nil))`, are
compared with the `sha256:<hex>` digest string. -/
def hasLayer (memKeys : List GoStr) (layer : ImageLayer) (file : Option Bytes) :
    Except GoStr Unit :=
  if layer.digest ∈ memKeys then .ok ()
  else
    match file with
    | none => .error ("open: no such file or directory".toList)
    | some content =>
        if bytesToGoStr (sha256 content) = layer.digest then .ok ()
        else .error ("digest mismatch for existing layer and the remote".toList)

/-- `copyTo` (src/unnamed/part_001:418-453).  The cache file is opened
with `O_WRONLY|O_CREATE` — no `O_TRUNC` — so the downloaded stream
overwrites the file in place and any pre-existing bytes beyond the
stream length survive.  The directory creation, open and copy are
modelled as succeeding with the whole stream received (`old` is the
pre-existing file content, `[]` when the file did not exist); the
function fails only when the byte count differs from the descriptor
size, and the written file persists in either case.  Result: (outcome,
final file content). -/
def copyTo (stream : Bytes) (old : Bytes) (l : ImageLayer) :
    Except GoStr Unit × Bytes :=
  (if stream.length = l.size then .ok ()
   else .error ("written layer size does not match remote layer size".toList),
   stream ++ old.drop stream.length)

/-- The per-layer goroutine body of `fetchLayers`
(src/unnamed/part_001:366-393): a blob `GET` is issued exactly when
`hasLayer` returns an error. -/
def layerTaskIssuesBlobGET (memKeys : List GoStr) (layer : ImageLayer)
    (file : Option Bytes) : Bool :=
  match hasLayer memKeys layer file with
  | .ok _ => false
  | .error _ => true

/-- A cache file can only hash-verify in `hasLayer` if the digest string
is exactly 32 characters long: the comparison pits the raw 32-byte hash
output against the digest, so a well-formed `sha256:<64 hex>` digest
(71 characters) never matches, whatever the file contains. -/
theorem hasLayer_file_never_verifies (layer : ImageLayer) (content : Bytes)
    (hd : layer.digest.length ≠ 32) :
    hasLayer registryCacheLayers layer (some content) =
      .error ("digest mismatch for existing layer and the remote".toList) := by
  have hne : bytesToGoStr (sha256 content) ≠ layer.digest := by
    intro h
    apply hd
    rw [← h]
    simp [bytesToGoStr, sha256_length]
  simp [hasLayer, registryCacheLayers, hne]

/-- The descriptor used in the C1 counterexample: a syntactically valid
digest (64 hex zeros) of size 1. -/
def layerZeroDigest : ImageLayer :=
  ⟨("sha256:0000000000000000000000000000000000000000000000000000000000000000").toList,
   ("0000000000000000000000000000000000000000000000000000000000000000").toList, 1⟩

/-- C1 counterexample: `copyTo` accepts a downloaded stream (one byte
`0x61`) whose SHA-256 differs from the descriptor's hex digest — only
the byte count is checked — and the file persists with exactly that
unverified content, so a persisted layer file need not hash to its
descriptor digest and no `DigestMismatch` is raised. -/
theorem C1_counterexample :
    (copyTo [0x61] [] layerZeroDigest).1 = .ok () ∧
    (copyTo [0x61] [] layerZeroDigest).2 = [0x61] ∧
    hexOfBytes (sha256 [0x61]) ≠ layerZeroDigest.sha256Sum :=
  ⟨rfl, rfl, by decide⟩

/-- C1 (amended): the layer fetcher's write path verifies only the byte
count: `copyTo` succeeds exactly when the number of bytes received
equals the descriptor's size; it computes no SHA-256 over the stream,
and the written file (the stream, followed by any surviving bytes of a
longer pre-existing file) persists whether or not the call succeeds. -/
theorem C1_copyTo_checks_only_size (stream old : Bytes) (l : ImageLayer) :
    ((copyTo stream old l).1 = .ok () ↔ stream.length = l.size) ∧
    (copyTo stream old l).2 = stream ++ old.drop stream.length := by
  refine ⟨?_, rfl⟩
  simp only [copyTo]
  split
  next h => simp [h]
  next h => simp [h]

/-- Witness for C1: a one-byte stream against a size-1 descriptor is
accepted by `copyTo`. -/
theorem C1_witness : (copyTo [0x61] [0x7, 0x8] layerZeroDigest).1 = .ok () :=
  (C1_copyTo_checks_only_size [0x61] [0x7, 0x8] layerZeroDigest).1.mpr rfl

/-- The descriptor used for C2: the digest of the one-byte file `"a"`
(`0x61`), whose cache file content in the scenario is exactly that byte,
so the file genuinely hash-verifies against the descriptor. -/
def warmLayer : ImageLayer :=
  ⟨("sha256:ca978112ca1bbdcafac231b39a23dc4da786eff8147c4e72b9807785afee48bb").toList,
   ("ca978112ca1bbdcafac231b39a23dc4da786eff8147c4e72b9807785afee48bb").toList, 1⟩

/-- C2: a layer whose cache file exists and whose SHA-256 equals the
descriptor's hex digest (first conjunct checks this inside the model)
still fails `hasLayer` — the raw 32 hash bytes are compared against the
71-character `sha256:<hex>` string — so the per-layer task issues a blob
`GET` even on a fully warm cache; a warm re-pull does not perform zero
blob `GET`s. -/
theorem C2_warm_cache_still_fetches :
    hexOfBytes (sha256 [0x61]) = warmLayer.sha256Sum ∧
    hasLayer registryCacheLayers warmLayer (some [0x61]) =
      .error ("digest mismatch for existing layer and the remote".toList) ∧
    layerTaskIssuesBlobGET registryCacheLayers warmLayer (some [0x61]) = true :=
  ⟨by decide, rfl, rfl⟩

/-- C10: `copyTo` opens the cache file without `O_TRUNC`, so when a
pre-existing cache file is longer than the downloaded stream, the call
succeeds (byte count matches the descriptor), yet the resulting file is
not the downloaded stream: the old bytes beyond the stream length
survive unchanged. -/
theorem C10_no_truncation (stream old : Bytes) (l : ImageLayer)
    (hsize : stream.length = l.size) (hlong : stream.length < old.length) :
    (copyTo stream old l).1 = .ok () ∧
    (copyTo stream old l).2 ≠ stream ∧
    (copyTo stream old l).2.drop stream.length = old.drop stream.length := by
  refine ⟨by simp [copyTo, hsize], ?_, ?_⟩
  · simp only [copyTo]
    intro h
    have hlen := congrArg List.length h
    simp [List.length_drop] at hlen
    omega
  · simp only [copyTo]
    exact List.drop_left stream (old.drop stream.length)

/-- Witness for C10: a stale two-byte cache file, a one-byte download of
declared size 1: the copy succeeds but the file keeps the stale tail. -/
theorem C10_witness :
    (copyTo [1] [5, 6] ⟨[], [], 1⟩).1 = .ok () ∧
    (copyTo [1] [5, 6] ⟨[], [], 1⟩).2 ≠ [1] ∧
    (copyTo [1] [5, 6] ⟨[], [], 1⟩).2.drop 1 = [5, 6].drop 1 :=
  C10_no_truncation [1] [5, 6] ⟨[], [], 1⟩ rfl (by decide)

/-! ### Reference parser (`sanitiseImageReference`) -/

/-- `strings.IndexRune`: index of the first occurrence, `-1` if absent
(all characters involved are ASCII, so byte and character indices
coincide). -/
def indexRune (s : GoStr) (c : Char) : Int :=
  match s.findIdx? (fun x => x = c) with
  | some i => i
  | none => -1

/-- `strings.ContainsAny`: does `s` contain any character of `chars`? -/
def containsAny (s : GoStr) (chars : GoStr) : Bool :=
  s.any (fun c => chars.contains c)

/-- `strings.Cut`: split around the first occurrence of `sep`, returning
(before, after, found); `(s, "", false)` when `sep` does not occur. -/
def goCut (s : GoStr) (sep : Char) : GoStr × GoStr × Bool :=
  match s with
  | [] => ([], [], false)
  | c :: rest =>
      if c = sep then ([], rest, true)
      else
        match goCut rest sep with
        | (before, after, true) => (c :: before, after, true)
        | _ => (c :: rest, [], false)

/-- The registry-detection half of `sanitiseImageReference`
(src/unnamed/part_001:514-522): if there is no `/`, or the part before
the first `/` contains neither `.` nor `:`, the registry is the default
`docker.io` and the reference is left whole; otherwise that part is the
registry and is stripped off.  Returns (registry, remainder). -/
def registrySplit (ref : GoStr) : GoStr × GoStr :=
  if indexRune ref '/' = -1 ∨
      containsAny (ref.take (indexRune ref '/').toNat) ['.', ':'] = false then
    ("docker.io".toList, ref)
  else
    (ref.take (indexRune ref '/').toNat, ref.drop ((indexRune ref '/').toNat + 1))

/-- The `library/` familiarisation (src/unnamed/part_001:524-527): under
the default registry, a reference not starting with `library/` gets that
prefix prepended. -/
def familiariseRef (registryDomain rem : GoStr) : GoStr :=
  if ¬ ("library/".toList.isPrefixOf rem) ∧ registryDomain = "docker.io".toList then
    "library/".toList ++ rem
  else rem

/-- The remainder handed to the tag split: registry stripped, then
`library/`-familiarised. -/
def remainderOf (ref : GoStr) : GoStr :=
  familiariseRef (registrySplit ref).1 (registrySplit ref).2

/-- `sanitiseImageReference` (src/unnamed/part_001:509-536): registry
detection, `library/` familiarisation, then `strings.Cut` at the first
`:` for the tag, defaulting to `latest` when there is none.  Returns
(repository, registry, tag); the function has no failure path. -/
def sanitiseImageReference (ref : GoStr) : GoStr × GoStr × GoStr :=
  ((goCut (remainderOf ref) ':').1,
   (registrySplit ref).1,
   if (goCut (remainderOf ref) ':').2.2 then (goCut (remainderOf ref) ':').2.1
   else "latest".toList)

-- Spec scenarios 1 and 2, validating the parser embedding.
example : sanitiseImageReference "alpine".toList =
    ("library/alpine".toList, "docker.io".toList, "latest".toList) := by decide

example : sanitiseImageReference "gcr.io/distroless/static:nonroot".toList =
    ("distroless/static".toList, "gcr.io".toList, "nonroot".toList) := by decide

/-- When `sep` does not occur, `goCut` returns the whole string with the
found flag false. -/
theorem goCut_not_found {s : GoStr} {sep : Char} (h : sep ∉ s) :
    goCut s sep = (s, [], false) := by
  induction s with
  | nil => rfl
  | cons a t ih =>
      simp only [List.mem_cons, not_or] at h
      have ha : ¬ a = sep := fun hh => h.1 hh.symm
      simp only [goCut, if_neg ha, ih h.2]

/-- When `sep` occurs, `goCut` splits at its first occurrence: the flag
is true, the string is before ++ sep :: after, and `sep` does not occur
in the before part. -/
theorem goCut_found {s : GoStr} {sep : Char} (h : sep ∈ s) :
    (goCut s sep).2.2 = true ∧
    s = (goCut s sep).1 ++ sep :: (goCut s sep).2.1 ∧
    sep ∉ (goCut s sep).1 := by
  induction s with
  | nil => cases h
  | cons a t ih =>
      by_cases hac : a = sep
      · subst hac
        simp [goCut]
      · have hct : sep ∈ t := by
          rcases List.mem_cons.mp h with h1 | h1
          · exact absurd h1.symm hac
          · exact h1
        obtain ⟨hf, heq, hnm⟩ := ih hct
        rcases hgc : goCut t sep with ⟨before, rest⟩
        rcases rest with ⟨after, flag⟩
        rw [hgc] at hf heq hnm
        simp only at hf
        subst hf
        simp only [goCut, if_neg hac, hgc]
        refine ⟨by trivial, ?_, ?_⟩
        · simpa using heq
        · simp only [List.mem_cons, not_or]
          exact ⟨fun hh => hac hh.symm, hnm⟩

/-- The registry returned by `registrySplit` is either the default
`docker.io` or a prefix of the input that contains a `.` or a `:`. -/
theorem registrySplit_default_or_host (s : GoStr) :
    (registrySplit s).1 = "docker.io".toList ∨
      containsAny (registrySplit s).1 ['.', ':'] = true := by
  unfold registrySplit
  split
  next h => exact Or.inl rfl
  next h =>
    push_neg at h
    right
    simpa using h.2

/-- C7 counterexample: on the empty input string the parser does not
fail — it returns the ImageReference (repository `library/`, registry
`docker.io`, tag `latest`), so no `InvalidReference` error exists for
the empty string (or any other input: the function's only outcome is a
triple). -/
theorem C7_counterexample :
    sanitiseImageReference [] =
      ("library/".toList, "docker.io".toList, "latest".toList) := by decide

/-- C7 (amended): the reference parser has no failure path at all: every
input string, the empty string included, is parsed into an
ImageReference whose registry is the default `docker.io` or a host
prefix containing `.` or `:`; the empty string yields repository
`library/`, registry `docker.io`, tag `latest`. -/
theorem C7_parser_never_fails (s : GoStr) :
    ((sanitiseImageReference s).2.1 = "docker.io".toList ∨
      containsAny (sanitiseImageReference s).2.1 ['.', ':'] = true) ∧
    sanitiseImageReference [] =
      ("library/".toList, "docker.io".toList, "latest".toList) := by
  exact ⟨registrySplit_default_or_host s, by decide⟩

/-- C8 counterexample: for `a:b:c` the remainder `library/a:b:c` is
split at the FIRST colon — repository `library/a`, tag `b:c` — not at
the last colon, which would give repository `library/a:b` and tag `c`. -/
theorem C8_counterexample :
    sanitiseImageReference "a:b:c".toList =
      ("library/a".toList, "docker.io".toList, "b:c".toList) ∧
    (sanitiseImageReference "a:b:c".toList).2.2 ≠ "c".toList := by decide

/-- C8 (amended): the parser splits the remainder (after registry
stripping and `library/` prefixing) at the FIRST `:`: the repository is
everything before the first colon (and is colon-free), the tag is
everything after it; when no colon is present the repository is the
whole remainder and the tag defaults to `latest`. -/
theorem C8_cut_at_first_colon (s : GoStr) :
    (':' ∈ remainderOf s →
      remainderOf s =
        (sanitiseImageReference s).1 ++ ':' :: (sanitiseImageReference s).2.2 ∧
      ':' ∉ (sanitiseImageReference s).1) ∧
    (':' ∉ remainderOf s →
      (sanitiseImageReference s).1 = remainderOf s ∧
      (sanitiseImageReference s).2.2 = "latest".toList) := by
  constructor
  · intro h
    obtain ⟨hf, heq, hnm⟩ := goCut_found h
    constructor
    · simpa [sanitiseImageReference, hf] using heq
    · simpa [sanitiseImageReference] using hnm
  · intro h
    have hcut := goCut_not_found h
    simp [sanitiseImageReference, hcut]

/-- Witness for C8: the `a:b:c` reference instantiates the first-colon
split. -/
theorem C8_witness :
    remainderOf "a:b:c".toList =
      (sanitiseImageReference "a:b:c".toList).1 ++ ':' ::
        (sanitiseImageReference "a:b:c".toList).2.2 ∧
    ':' ∉ (sanitiseImageReference "a:b:c".toList).1 :=
  (C8_cut_at_first_colon "a:b:c".toList).1 (by decide)

/-! ### Platform selection (`getDigestForSystem`) -/

/-- The `platform` object of a manifest-index entry. -/
structure GoPlatform where
  os : GoStr
  architecture : GoStr

/-- A `manifests` array entry of a manifest index. -/
structure ManifestEntry where
  digest : GoStr
  mediaType : GoStr
  size : Nat
  platform : GoPlatform

/-- `getDigestForSystem` (src/unnamed/part_001:455-467): walk the
`manifests` array in order and return the first entry whose platform
matches `runtime.GOOS` and `runtime.GOARCH` on both fields; error when
none does (JSON decoding is abstracted: the entry list is the input). -/
def getDigestForSystem (goos goarch : GoStr) :
    List ManifestEntry → Except GoStr ManifestEntry
  | [] => .error ("no digest found that supports this architecture or system".toList)
  | m :: rest =>
      if m.platform.os = goos ∧ m.platform.architecture = goarch then .ok m
      else getDigestForSystem goos goarch rest

/-- C6: platform selection returns the first entry of the `manifests`
array matching the host on BOTH `platform.os` and
`platform.architecture`: a selected entry matches both fields and every
entry before it fails the match; when no entry matches both fields the
walk ends in the no-platform-match error.  Hence a manifest selected for
execution always matches the host on both fields. -/
theorem C6_first_matching_platform (goos goarch : GoStr)
    (ms : List ManifestEntry) :
    (∀ m, getDigestForSystem goos goarch ms = .ok m →
      m.platform.os = goos ∧ m.platform.architecture = goarch ∧
      ∃ pre suf, ms = pre ++ m :: suf ∧
        ∀ m' ∈ pre, ¬(m'.platform.os = goos ∧ m'.platform.architecture = goarch)) ∧
    ((∀ m ∈ ms, ¬(m.platform.os = goos ∧ m.platform.architecture = goarch)) →
      getDigestForSystem goos goarch ms =
        .error ("no digest found that supports this architecture or system".toList)) := by
  induction ms with
  | nil =>
      constructor
      · intro m h
        simp [getDigestForSystem] at h
      · intro _
        rfl
  | cons a t ih =>
      constructor
      · intro m h
        simp only [getDigestForSystem] at h
        split at h
        next hc =>
          cases h
          exact ⟨hc.1, hc.2, [], t, rfl, by simp⟩
        next hc =>
          obtain ⟨h1, h2, pre, suf, heq, hpre⟩ := ih.1 m h
          refine ⟨h1, h2, a :: pre, suf, by rw [heq]; rfl, ?_⟩
          intro m' hm'
          rcases List.mem_cons.mp hm' with h' | h'
          · exact h' ▸ hc
          · exact hpre m' h'
      · intro hall
        simp only [getDigestForSystem]
        rw [if_neg (hall a (by simp))]
        exact ih.2 (fun m hm => hall m (List.mem_cons_of_mem a hm))

/-- A non-matching entry (windows/amd64), for the C6 witness. -/
def entryWindows : ManifestEntry :=
  ⟨"sha256:aa".toList, "application/vnd.docker.distribution.manifest.v2+json".toList,
   528, ⟨"windows".toList, "amd64".toList⟩⟩

/-- A matching entry (linux/amd64), for the C6 witness. -/
def entryLinux : ManifestEntry :=
  ⟨"sha256:bb".toList, "application/vnd.docker.distribution.manifest.v2+json".toList,
   529, ⟨"linux".toList, "amd64".toList⟩⟩

/-- Witness for C6: on a linux/amd64 host, a two-entry index whose first
entry is windows/amd64 selects the second entry, which matches both
fields, with the non-matching entry before it. -/
theorem C6_witness :
    entryLinux.platform.os = "linux".toList ∧
    entryLinux.platform.architecture = "amd64".toList ∧
    ∃ pre suf, [entryWindows, entryLinux] = pre ++ entryLinux :: suf ∧
      ∀ m' ∈ pre, ¬(m'.platform.os = "linux".toList ∧
        m'.platform.architecture = "amd64".toList) :=
  (C6_first_matching_platform "linux".toList "amd64".toList
    [entryWindows, entryLinux]).1 entryLinux rfl

/-! ### Auth negotiation trigger (`pullImage`) -/

/-- A manifest request as observed on the wire: whether it carries an
`Authorization: Bearer` header. -/
structure ManifestRequest where
  bearer : Bool
deriving DecidableEq

/-- The re-authentication condition of `pullImage`
(src/unnamed/part_001:202): `(resp.StatusCode > 400 && resp.StatusCode <
500) || auth == nil` — note the strict `> 400`. -/
def shouldReauthenticate (status : Nat) (hasAuth : Bool) : Bool :=
  (decide (400 < status) && decide (status < 500)) || !hasAuth

/-- How the re-authentication block of `pullImage` ends: either control
flows on to the content-type switch, or the process panics — in both
cases `requests` is the trace of manifest requests issued on the wire up
to that point. -/
inductive PullAuthFlow where
  | continued (requests : List ManifestRequest)
  | panicked (requests : List ManifestRequest)
deriving DecidableEq

/-- The index-fetch flow of `pullImage` (src/unnamed/part_001:184-217):
the original manifest request is issued (with a bearer token exactly
when the caller already holds one); when the re-authentication
condition fires, `requestAuthenticationToken` runs — `exchangeOk`
records whether that token exchange succeeds.  On success a single
retry carrying the fresh bearer token is issued and the flow continues;
on failure (missing or malformed `Www-Authenticate`, realm or JSON
error) `auth` is nil and the `auth.Token` dereference at part_001:208
panics, so NO retry is issued.  There is no second negotiation: after
the retry the body proceeds straight to the content-type switch. -/
def pullAuthFlow (status : Nat) (hasAuth exchangeOk : Bool) : PullAuthFlow :=
  if shouldReauthenticate status hasAuth then
    if exchangeOk then .continued [⟨hasAuth⟩, ⟨true⟩]
    else .panicked [⟨hasAuth⟩]
  else .continued [⟨hasAuth⟩]

/-- C5 counterexample: a 400 response with a token in hand is in the
claim's 4xx range, yet the negotiator is not invoked — the code tests
`StatusCode > 400` strictly — and no retry is issued whatever the
exchange would have returned. -/
theorem C5_counterexample :
    (400 ≤ 400 ∧ 400 < 500) ∧
    shouldReauthenticate 400 true = false ∧
    pullAuthFlow 400 true true = .continued [⟨true⟩] := by decide

/-- C5 (amended): the auth negotiator is invoked exactly for manifest
responses with status 401 through 499 — not 400 — or when the caller
holds no token yet; after a successful token exchange the original
request is retried exactly once, carrying the bearer token; when the
token exchange fails no retry is issued — the flow panics on the nil
auth dereference rather than surfacing an error — and when the
negotiator is not invoked there is no retry. -/
theorem C5_reauth_trigger_and_single_retry (status : Nat)
    (hasAuth exchangeOk : Bool) :
    (shouldReauthenticate status hasAuth = true ↔
      (401 ≤ status ∧ status ≤ 499) ∨ hasAuth = false) ∧
    (shouldReauthenticate status hasAuth = true → exchangeOk = true →
      pullAuthFlow status hasAuth exchangeOk = .continued [⟨hasAuth⟩, ⟨true⟩]) ∧
    (shouldReauthenticate status hasAuth = true → exchangeOk = false →
      pullAuthFlow status hasAuth exchangeOk = .panicked [⟨hasAuth⟩]) ∧
    (shouldReauthenticate status hasAuth = false →
      pullAuthFlow status hasAuth exchangeOk = .continued [⟨hasAuth⟩]) := by
  refine ⟨?_, ?_, ?_, ?_⟩
  · have hrange : (400 < status ∧ status < 500) ↔ (401 ≤ status ∧ status ≤ 499) := by
      omega
    simp [shouldReauthenticate, Bool.or_eq_true, Bool.and_eq_true,
      decide_eq_true_iff, hrange]
  · intro h hx
    simp [pullAuthFlow, h, hx]
  · intro h hx
    simp [pullAuthFlow, h, hx]
  · intro h
    simp [pullAuthFlow, h]

/-- Witness for C5: a 401 with a held token triggers the negotiator;
with a successful exchange exactly one bearer retry is issued, with a
failed exchange the flow panics after the original request alone. -/
theorem C5_witness :
    shouldReauthenticate 401 true = true ∧
    pullAuthFlow 401 true true = .continued [⟨true⟩, ⟨true⟩] ∧
    pullAuthFlow 401 true false = .panicked [⟨true⟩] :=
  ⟨by decide,
   (C5_reauth_trigger_and_single_retry 401 true true).2.1 (by decide) rfl,
   (C5_reauth_trigger_and_single_retry 401 true false).2.2.1 (by decide) rfl⟩

/-! ### Process isolation and the `main` sequence (src/app/image.go) -/

/-- The successful-path actions of `main` (src/app/image.go:286-364), in
program order, with the default build (`debugCapabilities` empty, so the
debug-only blocks are skipped). -/
inductive MainStep where
  | pullImage
  | createScratch
  | copyHelper
  | setupChroot
  | spawnChild
deriving DecidableEq

/-- The order in which `main` performs its actions: pull the image,
create the scratch temp directory, copy the `docker-explorer` helper
into it, chroot into it, then run the child command.  No step extracts
layers: `extractLayersToChroot` (src/app/image.go:249) has an empty body
and `untar` (src/app/file.go:114) has no callers. -/
def mainSteps : List MainStep :=
  [.pullImage, .createScratch, .copyHelper, .setupChroot, .spawnChild]

/-- Observable process/filesystem state: the process root and working
directory (host view), the files under the scratch directory, the cache
files under `/tmp/containers/layers`, and — once the child is spawned —
the (root, cwd, visible scratch files) it inherited. -/
structure SysState where
  root : GoStr
  cwd : GoStr
  scratchFiles : List GoStr
  cacheFiles : List GoStr
  childState : Option (GoStr × GoStr × List GoStr)

/-- `setup_chroot` (src/app/file.go:96-112): `syscall.Chroot(path)`
followed by `syscall.Chdir("/")` — afterwards the process root is the
scratch directory and so, from the host's view, is its working
directory. -/
def setup_chroot (path : GoStr) (s : SysState) : SysState :=
  { s with root := path, cwd := path }

/-- The effect of one `main` action.  `pullImage` writes the fetched
layer blobs into the layer cache directory — never into the scratch
directory; `copyFile` places the helper at
`<scratch>/usr/local/bin/docker-explorer`; spawning the child
(`cmd.Run`) makes it inherit the parent's root and working directory. -/
def applyStep (scratch : GoStr) (layers : List ImageLayer) :
    SysState → MainStep → SysState
  | s, .pullImage =>
      { s with cacheFiles :=
          s.cacheFiles ++ layers.map (fun l => l.sha256Sum ++ ".tar.gz".toList) }
  | s, .createScratch => { s with scratchFiles := [] }
  | s, .copyHelper =>
      { s with scratchFiles :=
          s.scratchFiles ++ ["usr/local/bin/docker-explorer".toList] }
  | s, .setupChroot => setup_chroot scratch s
  | s, .spawnChild => { s with childState := some (s.root, s.cwd, s.scratchFiles) }

/-- The state before `main` starts: host root, no scratch, no child. -/
def initState : SysState := ⟨"/".toList, "/".toList, [], [], none⟩

/-- Running `main`'s successful path from the initial state. -/
def runMain (scratch : GoStr) (layers : List ImageLayer) : SysState :=
  mainSteps.foldl (applyStep scratch layers) initState

/-- C3: no layer is ever applied to the scratch root filesystem.
Whatever layers the pull fetched, the scratch directory the child sees
contains exactly the copied `docker-explorer` helper: the fetched blobs
stay in the layer cache, `extractLayersToChroot` is an empty stub, and
`untar` is never invoked, so no layer entry — in manifest order or any
other — reaches the rootfs before the child command executes. -/
theorem C3_layers_never_applied (scratch : GoStr) (layers : List ImageLayer) :
    (runMain scratch layers).scratchFiles =
      ["usr/local/bin/docker-explorer".toList] ∧
    (runMain scratch layers).childState =
      some (scratch, scratch, ["usr/local/bin/docker-explorer".toList]) ∧
    (runMain scratch layers).cacheFiles =
      layers.map (fun l => l.sha256Sum ++ ".tar.gz".toList) := by
  refine ⟨rfl, rfl, ?_⟩
  simp [runMain, mainSteps, applyStep, initState, setup_chroot]

/-- C9: `setup_chroot` runs in the parent strictly before the child is
spawned (position 3 against 4 in `main`'s action order); after it
succeeds the parent's root and working directory are the scratch
directory, and the spawned child inherits exactly that root, working
directory and visible filesystem rather than entering the chroot
itself. -/
theorem C9_chroot_in_parent_before_spawn (scratch : GoStr)
    (layers : List ImageLayer) :
    mainSteps.indexOf .setupChroot = 3 ∧
    mainSteps.indexOf .spawnChild = 4 ∧
    (runMain scratch layers).root = scratch ∧
    (runMain scratch layers).cwd = scratch ∧
    (runMain scratch layers).childState =
      some ((runMain scratch layers).root, (runMain scratch layers).cwd,
        (runMain scratch layers).scratchFiles) := by
  exact ⟨rfl, rfl, rfl, rfl, rfl⟩

/-! ### Exit-code propagation (src/app/image.go:364-371) -/

/-- The possible outcomes of `cmd.Run()` for the child command. -/
inductive RunOutcome where
  | exited (code : Nat)
  | signalled
  | startFailure
deriving DecidableEq

/-- The exit status the operating system reports after `os.Exit(code)`:
the low byte of the code (`os.Exit(-1)` is observed as 255). -/
def osExitStatus (code : Int) : Nat := (code % 256).toNat

/-- The parent's observed exit status as a function of the child's
outcome, following src/app/image.go:364-371: `err == nil` (exit code 0)
falls through and the process exits 0; a nonzero exit gives an
`*exec.ExitError` whose `ExitCode()` is passed to `os.Exit`; a
signal-terminated child gives an `*exec.ExitError` with `ExitCode() ==
-1`, so `os.Exit(-1)` = status 255; a `cmd.Run` error that is not an
`*exec.ExitError` (the command could not be started) fails the type
assertion, so `main` returns normally and the process exits 0. -/
def mainExitStatus : RunOutcome → Nat
  | .exited 0 => 0
  | .exited c => osExitStatus c
  | .signalled => osExitStatus (-1)
  | .startFailure => 0

/-- The exit status for failures before the child is spawned —
`pullImage`, `copyFile` or `setup_chroot` errors — where `main` calls
`os.Exit(1)` (src/app/image.go:287-349). -/
def preSpawnFailureStatus : Nat := osExitStatus 1

/-- C4 counterexample: a child terminated by a signal makes the parent
exit with status 255 (`os.Exit(-1)`), not 1; and a command that cannot
be started at all makes the parent exit 0, not 1. -/
theorem C4_counterexample :
    mainExitStatus .signalled = 255 ∧ mainExitStatus .signalled ≠ 1 ∧
    mainExitStatus .startFailure = 0 ∧ mainExitStatus .startFailure ≠ 1 := by
  decide

/-- C4 (amended): when the child runs and exits, the parent's exit code
equals the child's; when the child terminates on a signal the parent
exits with status 255 (`os.Exit` of the `-1` exit code); when the
command cannot be started the parent exits 0; failures before the child
is spawned exit with 1. -/
theorem C4_exit_propagation (c : Nat) (hc : c ≤ 255) :
    mainExitStatus (.exited c) = c ∧
    mainExitStatus .signalled = 255 ∧
    mainExitStatus .startFailure = 0 ∧
    preSpawnFailureStatus = 1 := by
  refine ⟨?_, by decide, rfl, by decide⟩
  match c with
  | 0 => rfl
  | n + 1 =>
      show osExitStatus (n + 1) = n + 1
      simp only [osExitStatus]
      omega

/-- Witness for C4, matching spec scenario 6: a child exiting 7 makes
the parent exit 7. -/
theorem C4_witness :
    mainExitStatus (.exited 7) = 7 ∧
    mainExitStatus .signalled = 255 ∧
    mainExitStatus .startFailure = 0 ∧
    preSpawnFailureStatus = 1 :=
  C4_exit_propagation 7 (by decide)

end ContainerRuntime
